import Mathlib

/-!
Verification model of the Azure pgvector Python samples.

The repository consists of four example scripts:
  * `examples/psycopg_items.py`        (toy 3-dimensional vectors, psycopg2 driver)
  * `examples/sqlalchemy_items.py`     (toy 3-dimensional vectors, SQLAlchemy ORM)
  * `examples/sqlalchemy_movies.py`    (1536-dimensional catalog embeddings, SQLAlchemy ORM)
  * `examples/sqlalchemy_async.py`     (1536-dimensional catalog embeddings, async SQLAlchemy)

Each script resolves connection settings from the process environment, connects,
creates a schema with a vector column, builds an HNSW index, inserts rows and
issues similarity queries.  We embed each script as (1) a configuration-resolution
function over the environment and (2) a trace of database-visible steps, together
with a small transactional semantics for these steps.
-/

namespace PgVectorSamples

/-- Process environment: maps a variable name to its value when the variable is
set.  This models `os.environ` as seen by the scripts after `load_dotenv(".env",
override=True)` has merged the `.env` file into the environment. -/
def Env : Type := String → Option String

/-- `os.environ[key]`: returns the value, or raises `KeyError` when the variable
is absent. -/
def environGet (env : Env) (key : String) : Except String String :=
  match env key with
  | some v => Except.ok v
  | none => Except.error ("KeyError: " ++ key)

/-- The token scope every script passes to `DefaultAzureCredential().get_token`. -/
def aadScope : String := "https://ossrdbms-aad.database.windows.net/.default"

/-- The hostname suffix on which every script selects Azure token authentication. -/
def azureSuffix : String := ".database.azure.com"

/-- Python `str.endswith`: does the character sequence of `s` end with the
character sequence of `suffix`? -/
def strEndsWith (s suffix : String) : Bool := suffix.data.isSuffixOf s.data

/-- Connection settings a script resolves from the environment before it touches
the database. -/
structure Config where
  host : String
  username : String
  database : String
  password : String
  sslmode : Option String

/-- A cloud credential, modelling `DefaultAzureCredential`: maps a requested token
scope to the short-lived token `get_token(scope).token`. -/
def TokenProvider : Type := String → String

/-- `examples/psycopg_items.py` lines 15-21: `POSTGRES_PASSWORD` is the Azure AD
token when the host ends with `.database.azure.com`, and the value of the
`POSTGRES_PASSWORD` environment variable (KeyError when absent) otherwise. -/
def psycopg_resolvePassword (tok : TokenProvider) (env : Env) (host : String) :
    Except String String :=
  if strEndsWith host azureSuffix then Except.ok (tok aadScope)
  else environGet env "POSTGRES_PASSWORD"

/-- `examples/sqlalchemy_items.py` lines 27-33: identical password branch. -/
def sqlalchemy_items_resolvePassword (tok : TokenProvider) (env : Env) (host : String) :
    Except String String :=
  if strEndsWith host azureSuffix then Except.ok (tok aadScope)
  else environGet env "POSTGRES_PASSWORD"

/-- `examples/sqlalchemy_movies.py` lines 34-40: identical password branch. -/
def sqlalchemy_movies_resolvePassword (tok : TokenProvider) (env : Env) (host : String) :
    Except String String :=
  if strEndsWith host azureSuffix then Except.ok (tok aadScope)
  else environGet env "POSTGRES_PASSWORD"

/-- `examples/sqlalchemy_async.py` lines 98-104 (inside `async_main`): identical
password branch. -/
def sqlalchemy_async_resolvePassword (tok : TokenProvider) (env : Env) (host : String) :
    Except String String :=
  if strEndsWith host azureSuffix then Except.ok (tok aadScope)
  else environGet env "POSTGRES_PASSWORD"

/-- `examples/psycopg_items.py` lines 10-25: resolve `POSTGRES_HOST`,
`POSTGRES_USERNAME`, `POSTGRES_DATABASE`, then the password branch, then the
optional `POSTGRES_SSL`.  A missing required variable raises `KeyError` at the
corresponding line, before any connection is made. -/
def psycopg_config (tok : TokenProvider) (env : Env) : Except String Config :=
  match environGet env "POSTGRES_HOST" with
  | Except.error e => Except.error e
  | Except.ok host =>
    match environGet env "POSTGRES_USERNAME" with
    | Except.error e => Except.error e
    | Except.ok username =>
      match environGet env "POSTGRES_DATABASE" with
      | Except.error e => Except.error e
      | Except.ok database =>
        match psycopg_resolvePassword tok env host with
        | Except.error e => Except.error e
        | Except.ok password =>
          Except.ok { host, username, database, password, sslmode := env "POSTGRES_SSL" }

/-- `examples/sqlalchemy_items.py` lines 22-38: same resolution order. -/
def sqlalchemy_items_config (tok : TokenProvider) (env : Env) : Except String Config :=
  match environGet env "POSTGRES_HOST" with
  | Except.error e => Except.error e
  | Except.ok host =>
    match environGet env "POSTGRES_USERNAME" with
    | Except.error e => Except.error e
    | Except.ok username =>
      match environGet env "POSTGRES_DATABASE" with
      | Except.error e => Except.error e
      | Except.ok database =>
        match sqlalchemy_items_resolvePassword tok env host with
        | Except.error e => Except.error e
        | Except.ok password =>
          Except.ok { host, username, database, password, sslmode := env "POSTGRES_SSL" }

/-- `examples/sqlalchemy_movies.py` lines 29-45: same resolution order. -/
def sqlalchemy_movies_config (tok : TokenProvider) (env : Env) : Except String Config :=
  match environGet env "POSTGRES_HOST" with
  | Except.error e => Except.error e
  | Except.ok host =>
    match environGet env "POSTGRES_USERNAME" with
    | Except.error e => Except.error e
    | Except.ok username =>
      match environGet env "POSTGRES_DATABASE" with
      | Except.error e => Except.error e
      | Except.ok database =>
        match sqlalchemy_movies_resolvePassword tok env host with
        | Except.error e => Except.error e
        | Except.ok password =>
          Except.ok { host, username, database, password, sslmode := env "POSTGRES_SSL" }

/-- `examples/sqlalchemy_async.py` lines 92-109 (inside `async_main`): same
resolution order. -/
def sqlalchemy_async_config (tok : TokenProvider) (env : Env) : Except String Config :=
  match environGet env "POSTGRES_HOST" with
  | Except.error e => Except.error e
  | Except.ok host =>
    match environGet env "POSTGRES_USERNAME" with
    | Except.error e => Except.error e
    | Except.ok username =>
      match environGet env "POSTGRES_DATABASE" with
      | Except.error e => Except.error e
      | Except.ok database =>
        match sqlalchemy_async_resolvePassword tok env host with
        | Except.error e => Except.error e
        | Except.ok password =>
          Except.ok { host, username, database, password, sslmode := env "POSTGRES_SSL" }

/-- The two distance metrics offered by the pgvector extension and used by the
scripts: `vector_l2_ops` / operator `<->` (Euclidean) and `vector_cosine_ops` /
operator `<=>` (cosine). -/
inductive Metric
  | l2
  | cosine
deriving DecidableEq

/-- SQL column types appearing in the two schemas. -/
inductive ColType
  | bigserial
  | integer
  | str
  | float
  | vector (dims : Nat)
deriving DecidableEq

/-- A column of a table definition. -/
structure Column where
  name : String
  type : ColType
deriving DecidableEq

/-- A table definition. -/
structure TableDef where
  name : String
  columns : List Column
deriving DecidableEq

/-- `psycopg_items.py` line 42:
`CREATE TABLE items (id bigserial PRIMARY KEY, embedding vector(3))`. -/
def psycopg_itemsTable : TableDef :=
  { name := "items",
    columns := [{ name := "id", type := ColType.bigserial },
                { name := "embedding", type := ColType.vector 3 }] }

/-- `sqlalchemy_items.py` lines 11-18: the `Item` model with an integer primary
key and `embedding = mapped_column(Vector(3))`. -/
def sqlalchemy_items_itemsTable : TableDef :=
  { name := "items",
    columns := [{ name := "id", type := ColType.integer },
                { name := "embedding", type := ColType.vector 3 }] }

/-- `sqlalchemy_movies.py` lines 17-25: the catalog `Item` model with
`embedding = mapped_column(Vector(1536))`. -/
def sqlalchemy_movies_itemsTable : TableDef :=
  { name := "items",
    columns := [{ name := "id", type := ColType.integer },
                { name := "type", type := ColType.str },
                { name := "brand", type := ColType.str },
                { name := "name", type := ColType.str },
                { name := "description", type := ColType.str },
                { name := "price", type := ColType.float },
                { name := "embedding", type := ColType.vector 1536 }] }

/-- `sqlalchemy_async.py` lines 21-29: identical catalog `Item` model. -/
def sqlalchemy_async_itemsTable : TableDef :=
  { name := "items",
    columns := [{ name := "id", type := ColType.integer },
                { name := "type", type := ColType.str },
                { name := "brand", type := ColType.str },
                { name := "name", type := ColType.str },
                { name := "description", type := ColType.str },
                { name := "price", type := ColType.float },
                { name := "embedding", type := ColType.vector 1536 }] }

/-- The SQL queries the scripts issue, parametrised by the type `Emb` of query
vectors.  `nearest` is `ORDER BY embedding <dist> target LIMIT k`;
`orderedDistance` is `SELECT embedding <dist> target ... ORDER BY ... LIMIT 1`;
`selectDistance` is `SELECT embedding <dist> target` with no ordering;
`threshold` is `WHERE embedding <dist> target < bound`; `avgEmbedding` is
`SELECT avg(embedding)`; `byName` is `WHERE name = n`. -/
inductive Query (Emb : Type)
  | selectAll
  | nearest (metric : Metric) (target : Emb) (limit : Nat)
  | orderedDistance (metric : Metric) (target : Emb)
  | selectDistance (metric : Metric) (target : Emb)
  | threshold (metric : Metric) (target : Emb) (bound : Int)
  | avgEmbedding
  | byName (n : String)

/-- One database-visible step of a script, parametrised by the row type `Row`
stored in the `items` table and the query-vector type `Emb`. -/
inductive Step (Row Emb : Type)
  | connect
  | setAutocommit
  | createExtension
  | dropTables
  | createTables (table : TableDef)
  | registerVector
  | dropIndex
  | createIndex (ops : Metric)
  | insertRow (row : Row)
  | insertRows (rows : List Row)
  | commit
  | query (q : Query Emb)
  | printMsg (msg : String)
  | printResults
  | exitProc (code : Nat)
  | sessionEnd

/-- Rows of the toy scripts: a single 3-component integer vector (the serial id
is assigned by the database). -/
abbrev ToyRow : Type := List Int

/-- A toy-script step. -/
abbrev ToyStep : Type := Step ToyRow (List Int)

/-- One record of `catalog.json` as loaded by the two catalog scripts.  Python
floats are modelled as rationals. -/
structure CatalogItem where
  id : Nat
  type : String
  brand : String
  name : String
  description : String
  price : Rat
  embedding : List Rat

/-- A catalog-script step. -/
abbrev CatStep : Type := Step CatalogItem (List Rat)

/-- The name both catalog scripts look up (`Item.name == "LumenHead Headlamp"`). -/
def targetName : String := "LumenHead Headlamp"

/-- The three toy vectors inserted by both toy scripts. -/
def toyVectors : List ToyRow := [[1, 2, 3], [-1, 1, 3], [0, -1, -2]]

/-- The database-visible steps of `psycopg_items.py` lines 27-93, in program
order: connect, set autocommit, create the extension, drop and recreate the
table, register the vector type, create the HNSW index with `vector_l2_ops`,
insert the three vectors one by one, then the five queries with their printed
results, and finally `cur.close()`. -/
def psycopg_steps : List ToyStep :=
  [Step.connect,
   Step.setAutocommit,
   Step.createExtension,
   Step.dropTables,
   Step.createTables psycopg_itemsTable,
   Step.registerVector,
   Step.createIndex Metric.l2,
   Step.insertRow [1, 2, 3],
   Step.insertRow [-1, 1, 3],
   Step.insertRow [0, -1, -2],
   Step.query Query.selectAll,
   Step.printMsg "All vectors in table items:",
   Step.printResults,
   Step.query (Query.nearest Metric.l2 [3, 1, 2] 2),
   Step.printMsg "Two closest vectors to [3, 1, 2] in table items:",
   Step.printResults,
   Step.query (Query.orderedDistance Metric.l2 [3, 1, 2]),
   Step.printResults,
   Step.query (Query.threshold Metric.l2 [3, 1, 2] 5),
   Step.printMsg "Vectors within a distance of 5 from [3, 1, 2]:",
   Step.printResults,
   Step.query Query.avgEmbedding,
   Step.printResults,
   Step.sessionEnd]

/-- The database-visible steps of `sqlalchemy_items.py` lines 134-192, in
program order: the engine connects, creates the extension, drops and recreates
the model tables, then inside one ORM `Session` the HNSW index is created with
`vector_l2_ops`, the three vectors are staged with `add_all`, and the five
queries run; the session is closed without ever committing. -/
def sqlalchemy_items_steps : List ToyStep :=
  [Step.connect,
   Step.createExtension,
   Step.dropTables,
   Step.createTables sqlalchemy_items_itemsTable,
   Step.createIndex Metric.l2,
   Step.insertRows toyVectors,
   Step.query Query.selectAll,
   Step.printMsg "All vectors in table items:",
   Step.printResults,
   Step.query (Query.nearest Metric.l2 [3, 1, 2] 2),
   Step.printMsg "Two closest vectors to [3, 1, 2] in table items:",
   Step.printResults,
   Step.query (Query.selectDistance Metric.l2 [3, 1, 2]),
   Step.printResults,
   Step.query (Query.threshold Metric.l2 [3, 1, 2] 5),
   Step.printMsg "Vectors within a distance of 5 from [3, 1, 2]:",
   Step.printResults,
   Step.query Query.avgEmbedding,
   Step.printResults,
   Step.sessionEnd]

/-- `sqlalchemy_movies.py` lines 92-104: the steps after the name lookup, as a
function of the first row whose name is `targetName` (`.scalars().first()`).
When no row matches, the script prints "Movie not found" and calls `exit(1)`;
otherwise it issues the five-nearest cosine query and prints the results. -/
def sqlalchemy_movies_lookupSteps : Option CatalogItem → List CatStep
  | none => [Step.printMsg "Movie not found", Step.exitProc 1]
  | some it =>
      [Step.query (Query.nearest Metric.cosine it.embedding 5),
       Step.printMsg ("Five most similar items to " ++ it.name ++ ":"),
       Step.printResults]

/-- The database-visible steps of `sqlalchemy_movies.py` lines 47-104 for a
given content of `catalog.json`: connect, create the extension, drop and
recreate the model tables, drop and recreate the HNSW cosine index, insert the
catalog rows and commit, then look up the target item by name and continue with
`sqlalchemy_movies_lookupSteps`.  The lookup sees exactly the committed catalog
rows. -/
def sqlalchemy_movies_steps (catalog : List CatalogItem) : List CatStep :=
  [Step.connect,
   Step.createExtension,
   Step.dropTables,
   Step.createTables sqlalchemy_movies_itemsTable,
   Step.dropIndex,
   Step.createIndex Metric.cosine,
   Step.insertRows catalog,
   Step.commit,
   Step.query (Query.byName targetName)]
  ++ sqlalchemy_movies_lookupSteps (catalog.find? (fun it => it.name == targetName))
  ++ [Step.sessionEnd]

/-- An asyncio program over catalog-script steps.  `action` is a single awaited
database operation, `andThen p q` runs `q` only after `p` has completed (the
`await` discipline), and `concurrently p q` models `asyncio.gather` or task
spawning, where operations of `p` and `q` may be in flight at the same time. -/
inductive AProg
  | skip
  | action (s : CatStep)
  | andThen (p q : AProg)
  | concurrently (p q : AProg)

/-- Whether a program ever composes two sub-programs concurrently. -/
def AProg.usesConcurrency : AProg → Bool
  | AProg.skip => false
  | AProg.action _ => false
  | AProg.andThen p q => p.usesConcurrency || q.usesConcurrency
  | AProg.concurrently _ _ => true

/-- The sequence of steps a program performs.  For the programs in this
repository every composition is `andThen`, so this sequence is the program's
only possible execution order; `concurrently` is flattened arbitrarily and does
not occur below. -/
def AProg.linearize : AProg → List CatStep
  | AProg.skip => []
  | AProg.action s => [s]
  | AProg.andThen p q => p.linearize ++ q.linearize
  | AProg.concurrently p q => p.linearize ++ q.linearize

/-- Sequencing of a list of awaited steps. -/
def AProg.ofSteps (l : List CatStep) : AProg :=
  l.foldr (fun s p => AProg.andThen (AProg.action s) p) AProg.skip

/-- `sqlalchemy_async.py` lines 32-52, `insert_objects`: one async session whose
transaction inserts every catalog row and commits; the session then closes. -/
def async_insert_objects (catalog : List CatalogItem) : AProg :=
  AProg.ofSteps [Step.insertRows catalog, Step.commit, Step.sessionEnd]

/-- `sqlalchemy_async.py` lines 61-65 and 68-73: the steps after the awaited
name lookup, identical to the branch in `sqlalchemy_movies.py`. -/
def async_lookupSteps : Option CatalogItem → List CatStep
  | none => [Step.printMsg "Movie not found", Step.exitProc 1]
  | some it =>
      [Step.query (Query.nearest Metric.cosine it.embedding 5),
       Step.printMsg ("Five most similar items to " ++ it.name ++ ":"),
       Step.printResults]

/-- `sqlalchemy_async.py` lines 55-73, `select_and_update_objects`: one async
session that awaits the name lookup, then the branch on its result; the
session then closes. -/
def async_select_and_update_objects (catalog : List CatalogItem) : AProg :=
  AProg.andThen (AProg.action (Step.query (Query.byName targetName)))
    (AProg.andThen
      (AProg.ofSteps (async_lookupSteps (catalog.find? (fun it => it.name == targetName))))
      (AProg.action Step.sessionEnd))

/-- `sqlalchemy_async.py` lines 91-136, `async_main`: connect inside
`engine.begin()`, create the extension, drop and recreate the model tables,
drop and recreate the HNSW cosine index, then await `insert_objects`, then
await `select_and_update_objects`.  Every database operation is awaited in
sequence; the script never spawns tasks or gathers. -/
def async_main_prog (catalog : List CatalogItem) : AProg :=
  AProg.andThen
    (AProg.ofSteps
      [Step.connect,
       Step.createExtension,
       Step.dropTables,
       Step.createTables sqlalchemy_async_itemsTable,
       Step.dropIndex,
       Step.createIndex Metric.cosine])
    (AProg.andThen (async_insert_objects catalog)
      (async_select_and_update_objects catalog))

/-- The database-visible steps of `sqlalchemy_async.py` for a given content of
`catalog.json`: the unique execution order of `async_main_prog`. -/
def sqlalchemy_async_steps (catalog : List CatalogItem) : List CatStep :=
  (async_main_prog catalog).linearize

/-- Whether a script drives the database through an asynchronous session.
`sqlalchemy_async.py` builds `create_async_engine` / `AsyncSession`; the other
three scripts use the synchronous `psycopg2` cursor or the synchronous ORM
`Session`. -/
def psycopg_usesAsyncSession : Bool := false

/-- `sqlalchemy_items.py` uses the synchronous ORM `Session`. -/
def sqlalchemy_items_usesAsyncSession : Bool := false

/-- `sqlalchemy_movies.py` uses the synchronous ORM `Session`. -/
def sqlalchemy_movies_usesAsyncSession : Bool := false

/-- `sqlalchemy_async.py` uses `create_async_engine` and `AsyncSession`. -/
def sqlalchemy_async_usesAsyncSession : Bool := true

/-- Transactional state of the `items` table: whether the table exists, its
committed rows, the rows inserted but not yet committed by the current
session, and whether the connection auto-commits each statement. -/
structure DBState (Row : Type) where
  tableExists : Bool
  committed : List Row
  pending : List Row
  autocommit : Bool

/-- Effect of one step on the table state.  DDL (`DROP TABLE` / `CREATE TABLE`)
takes effect immediately and destroys all rows; an insert is committed at once
under autocommit and staged in the session otherwise; `commit` publishes the
staged rows; closing a session without committing rolls its staged rows back;
queries, prints and index DDL do not change the row state. -/
def execStep {Row Emb : Type} (s : DBState Row) : Step Row Emb → DBState Row
  | Step.connect => s
  | Step.setAutocommit => { s with autocommit := true }
  | Step.createExtension => s
  | Step.dropTables => { s with tableExists := false, committed := [], pending := [] }
  | Step.createTables _ => { s with tableExists := true, committed := [], pending := [] }
  | Step.registerVector => s
  | Step.dropIndex => s
  | Step.createIndex _ => s
  | Step.insertRow r =>
      if s.autocommit then { s with committed := s.committed ++ [r] }
      else { s with pending := s.pending ++ [r] }
  | Step.insertRows rs =>
      if s.autocommit then { s with committed := s.committed ++ rs }
      else { s with pending := s.pending ++ rs }
  | Step.commit => { s with committed := s.committed ++ s.pending, pending := [] }
  | Step.query _ => s
  | Step.printMsg _ => s
  | Step.printResults => s
  | Step.exitProc _ => s
  | Step.sessionEnd => { s with pending := [] }

/-- Run a list of steps from a state. -/
def runSteps {Row Emb : Type} (s : DBState Row) (steps : List (Step Row Emb)) : DBState Row :=
  steps.foldl (fun st step => execStep st step) s

/-- The rows a query issued by the current session sees: the committed rows
plus the session's own flushed-but-uncommitted rows. -/
def visibleRows {Row : Type} (s : DBState Row) : List Row :=
  s.committed ++ s.pending

/-- The rows visible to each query of a step list, in order. -/
def visibleAtQueries {Row Emb : Type} (s : DBState Row) :
    List (Step Row Emb) → List (List Row)
  | [] => []
  | Step.query q :: rest =>
      visibleRows s :: visibleAtQueries (execStep s (Step.query q)) rest
  | step :: rest => visibleAtQueries (execStep s step) rest

/-- A fresh run against a database whose `items` table currently holds `old`:
no session is open and the connection does not auto-commit. -/
def initState {Row : Type} (old : List Row) : DBState Row :=
  { tableExists := true, committed := old, pending := [], autocommit := false }

/-- `examples/psycopg_items.py` as a whole: resolve the configuration from the
environment; on a `KeyError` the script aborts with that error having performed
no database step, otherwise it performs `psycopg_steps`. -/
def psycopg_main (tok : TokenProvider) (env : Env) : List ToyStep × Option String :=
  match psycopg_config tok env with
  | Except.error e => ([], some e)
  | Except.ok _ => (psycopg_steps, none)

/-- `examples/sqlalchemy_items.py` as a whole. -/
def sqlalchemy_items_main (tok : TokenProvider) (env : Env) :
    List ToyStep × Option String :=
  match sqlalchemy_items_config tok env with
  | Except.error e => ([], some e)
  | Except.ok _ => (sqlalchemy_items_steps, none)

/-- `examples/sqlalchemy_movies.py` as a whole, for a given `catalog.json`. -/
def sqlalchemy_movies_main (tok : TokenProvider) (env : Env)
    (catalog : List CatalogItem) : List CatStep × Option String :=
  match sqlalchemy_movies_config tok env with
  | Except.error e => ([], some e)
  | Except.ok _ => (sqlalchemy_movies_steps catalog, none)

/-- `examples/sqlalchemy_async.py` as a whole, for a given `catalog.json`:
`async_main` resolves the configuration before creating the engine. -/
def sqlalchemy_async_main (tok : TokenProvider) (env : Env)
    (catalog : List CatalogItem) : List CatStep × Option String :=
  match sqlalchemy_async_config tok env with
  | Except.error e => ([], some e)
  | Except.ok _ => (sqlalchemy_async_steps catalog, none)

/-- Is this step a nearest-neighbors similarity query (`ORDER BY` a distance
operator with a row limit)? -/
def isNearestQuery {Row Emb : Type} : Step Row Emb → Bool
  | Step.query (Query.nearest _ _ _) => true
  | _ => false

/-- Is this step a distance-threshold similarity query (`WHERE` a distance
operator is below a bound)? -/
def isThresholdQuery {Row Emb : Type} : Step Row Emb → Bool
  | Step.query (Query.threshold _ _ _) => true
  | _ => false

/-- Is this step the aggregate vector-average query (`SELECT avg(embedding)`)? -/
def isAvgQuery {Row Emb : Type} : Step Row Emb → Bool
  | Step.query Query.avgEmbedding => true
  | _ => false

/-- Does a run issue all three kinds of similarity queries: nearest neighbors,
distance threshold and aggregate average? -/
def issuesAllThree {Row Emb : Type} (steps : List (Step Row Emb)) : Bool :=
  steps.any isNearestQuery && steps.any isThresholdQuery && steps.any isAvgQuery

/-- The distance metrics a query ranks or filters by. -/
def queryMetrics {Emb : Type} : Query Emb → List Metric
  | Query.nearest m _ _ => [m]
  | Query.orderedDistance m _ => [m]
  | Query.selectDistance m _ => [m]
  | Query.threshold m _ _ => [m]
  | Query.selectAll => []
  | Query.avgEmbedding => []
  | Query.byName _ => []

/-- The distance metrics a step uses, either as an index access method or
inside a query. -/
def stepMetrics {Row Emb : Type} : Step Row Emb → List Metric
  | Step.createIndex m => [m]
  | Step.query q => queryMetrics q
  | _ => []

/-- All distance metrics used across a run. -/
def usedMetrics {Row Emb : Type} (steps : List (Step Row Emb)) : List Metric :=
  (steps.map stepMetrics).flatten

/-- The access methods of the indexes a run creates. -/
def indexMetrics {Row Emb : Type} (steps : List (Step Row Emb)) : List Metric :=
  steps.filterMap (fun s => match s with
    | Step.createIndex m => some m
    | _ => none)

/-- The vector dimensionalities a column declares. -/
def columnDims (c : Column) : List Nat :=
  match c.type with
  | ColType.vector d => [d]
  | _ => []

/-- The vector dimensionalities a table definition declares. -/
def tableDims (t : TableDef) : List Nat :=
  (t.columns.map columnDims).flatten

/-- Every vector dimensionality a run declares, in order: only a `CREATE TABLE`
step declares one. -/
def dimsDeclared {Row Emb : Type} (steps : List (Step Row Emb)) : List Nat :=
  (steps.map (fun s => match s with
    | Step.createTables t => tableDims t
    | _ => [])).flatten

/-- The stage a step belongs to in the claimed order "connect, create schema
(extension, drop existing tables, create tables), create index, insert rows,
run queries and print results".  Bookkeeping steps (autocommit mode, vector
type registration, commits, process exit, session close) carry no stage. -/
def stepPhase {Row Emb : Type} : Step Row Emb → Option Nat
  | Step.connect => some 0
  | Step.createExtension => some 1
  | Step.dropTables => some 2
  | Step.createTables _ => some 3
  | Step.dropIndex => some 4
  | Step.createIndex _ => some 4
  | Step.insertRow _ => some 5
  | Step.insertRows _ => some 5
  | Step.query _ => some 6
  | Step.printMsg _ => some 6
  | Step.printResults => some 6
  | _ => none

/-- The stages of a run, in program order. -/
def phasesOf {Row Emb : Type} (steps : List (Step Row Emb)) : List Nat :=
  steps.filterMap stepPhase

/-- Is a list of stage numbers nondecreasing? -/
def nondecreasing : List Nat → Bool
  | [] => true
  | [_] => true
  | a :: b :: r => Nat.ble a b && nondecreasing (b :: r)

/-- Scan a run, checking that every query occurs after an index was created. -/
def queriesAfterIndexFrom {Row Emb : Type} : Bool → List (Step Row Emb) → Bool
  | _, [] => true
  | _, Step.createIndex _ :: r => queriesAfterIndexFrom true r
  | seen, Step.query _ :: r => seen && queriesAfterIndexFrom seen r
  | seen, _ :: r => queriesAfterIndexFrom seen r

/-- Every query of the run occurs after an index-creation step. -/
def queriesAfterIndex {Row Emb : Type} (steps : List (Step Row Emb)) : Bool :=
  queriesAfterIndexFrom false steps

/-- Scan a run, checking that every row insertion occurs after the table was
created. -/
def insertsAfterTablesFrom {Row Emb : Type} : Bool → List (Step Row Emb) → Bool
  | _, [] => true
  | _, Step.createTables _ :: r => insertsAfterTablesFrom true r
  | seen, Step.insertRow _ :: r => seen && insertsAfterTablesFrom seen r
  | seen, Step.insertRows _ :: r => seen && insertsAfterTablesFrom seen r
  | seen, _ :: r => insertsAfterTablesFrom seen r

/-- Every insertion of the run occurs after the schema-creation step. -/
def insertsAfterTables {Row Emb : Type} (steps : List (Step Row Emb)) : Bool :=
  insertsAfterTablesFrom false steps

/-- Is this step a transaction commit? -/
def isCommitStep {Row Emb : Type} : Step Row Emb → Bool
  | Step.commit => true
  | _ => false

/-- Is this step the unconditional `DROP TABLE`? -/
def isDropTablesStep {Row Emb : Type} : Step Row Emb → Bool
  | Step.dropTables => true
  | _ => false

/-- Does this step print the literal message "Movie not found"? -/
def printsNotFound {Row Emb : Type} : Step Row Emb → Bool
  | Step.printMsg m => m == "Movie not found"
  | _ => false

/-- Is this step a process exit with status 1? -/
def isExitOne {Row Emb : Type} : Step Row Emb → Bool
  | Step.exitProc c => c == 1
  | _ => false

/-- A run aborted before any database step: no step was performed and an error
was raised. -/
def abortedRun {Row Emb : Type} (run : List (Step Row Emb) × Option String) : Prop :=
  run.1 = [] ∧ run.2.isSome = true

/-- A concrete catalog record whose name is the looked-up target. -/
def demoItem : CatalogItem :=
  { id := 1, type := "Lighting", brand := "LumenHead", name := "LumenHead Headlamp",
    description := "A compact headlamp", price := 10, embedding := [1, 0, 0] }

/-- A concrete one-record content of `catalog.json` containing the target. -/
def demoCatalog : List CatalogItem := [demoItem]

/-- All interleavings of two step sequences: the possible observation orders of
two concurrently running operation streams. -/
def shuffles (xs ys : List CatStep) : List (List CatStep) :=
  match xs, ys with
  | [], ys => [ys]
  | x :: xs, [] => [x :: xs]
  | x :: xs, y :: ys =>
      ((shuffles xs (y :: ys)).map (fun l => x :: l)) ++
      ((shuffles (x :: xs) ys).map (fun l => y :: l))
termination_by xs.length + ys.length

/-- All step orders an asyncio program can exhibit: sequential composition
concatenates, concurrent composition allows any interleaving.  A program whose
executions form a singleton has exactly one possible order, i.e. no two of its
operations are ever in flight concurrently. -/
def executionsA : AProg → List (List CatStep)
  | AProg.skip => [[]]
  | AProg.action s => [[s]]
  | AProg.andThen p q =>
      ((executionsA p).map (fun a => (executionsA q).map (fun b => a ++ b))).flatten
  | AProg.concurrently p q =>
      ((executionsA p).map (fun a =>
        ((executionsA q).map (fun b => shuffles a b)).flatten)).flatten

/-- Helper: the found-branch header string can never be the not-found message. -/
theorem fiveMost_ne_notFound (s : String) :
    (("Five most similar items to " ++ s ++ ":") == "Movie not found") = false := by
  have hne : ("Five most similar items to " ++ s ++ ":") ≠ "Movie not found" := by
    intro h
    have hlen := congrArg String.length h
    have h1 : ("Five most similar items to " : String).length = 27 := rfl
    have h2 : (":" : String).length = 1 := rfl
    have h3 : ("Movie not found" : String).length = 15 := rfl
    rw [String.length_append, String.length_append, h1, h2, h3] at hlen
    omega
  exact beq_eq_false_iff_ne.mpr hne

/-- Claim C1: in every script the database password is resolved by a branch on
the hostname suffix alone: when `POSTGRES_HOST` ends with `.database.azure.com`
the password is the short-lived token the cloud identity credential returns for
the `ossrdbms-aad` scope, and otherwise it is the value of the
`POSTGRES_PASSWORD` environment variable.  No other input affects the choice:
for a fixed host, the result depends on the environment only through
`POSTGRES_PASSWORD`. -/
theorem claim_c1 (tok : TokenProvider) (env env' : Env) (host : String) :
    (strEndsWith host azureSuffix = true →
      psycopg_resolvePassword tok env host = Except.ok (tok aadScope) ∧
      sqlalchemy_items_resolvePassword tok env host = Except.ok (tok aadScope) ∧
      sqlalchemy_movies_resolvePassword tok env host = Except.ok (tok aadScope) ∧
      sqlalchemy_async_resolvePassword tok env host = Except.ok (tok aadScope)) ∧
    (strEndsWith host azureSuffix = false →
      psycopg_resolvePassword tok env host = environGet env "POSTGRES_PASSWORD" ∧
      sqlalchemy_items_resolvePassword tok env host = environGet env "POSTGRES_PASSWORD" ∧
      sqlalchemy_movies_resolvePassword tok env host = environGet env "POSTGRES_PASSWORD" ∧
      sqlalchemy_async_resolvePassword tok env host = environGet env "POSTGRES_PASSWORD") ∧
    (env "POSTGRES_PASSWORD" = env' "POSTGRES_PASSWORD" →
      psycopg_resolvePassword tok env host = psycopg_resolvePassword tok env' host ∧
      sqlalchemy_items_resolvePassword tok env host
        = sqlalchemy_items_resolvePassword tok env' host ∧
      sqlalchemy_movies_resolvePassword tok env host
        = sqlalchemy_movies_resolvePassword tok env' host ∧
      sqlalchemy_async_resolvePassword tok env host
        = sqlalchemy_async_resolvePassword tok env' host) := by
  refine ⟨fun h => ?_, fun h => ?_, fun h => ?_⟩
  · simp [psycopg_resolvePassword, sqlalchemy_items_resolvePassword,
      sqlalchemy_movies_resolvePassword, sqlalchemy_async_resolvePassword, h]
  · simp [psycopg_resolvePassword, sqlalchemy_items_resolvePassword,
      sqlalchemy_movies_resolvePassword, sqlalchemy_async_resolvePassword, h]
  · unfold psycopg_resolvePassword sqlalchemy_items_resolvePassword
      sqlalchemy_movies_resolvePassword sqlalchemy_async_resolvePassword environGet
    rw [h]
    exact ⟨rfl, rfl, rfl, rfl⟩

/-- Witness for C1: at an Azure host the password is the token, at `localhost`
it is the `POSTGRES_PASSWORD` environment value. -/
theorem claim_c1_witness :
    psycopg_resolvePassword (fun _ => "tok0") (fun _ => some "pw0") "srv.database.azure.com"
        = Except.ok "tok0" ∧
    psycopg_resolvePassword (fun _ => "tok0") (fun _ => some "pw0") "localhost"
        = environGet (fun _ => some "pw0") "POSTGRES_PASSWORD" := by
  refine ⟨?_, ?_⟩
  · exact ((claim_c1 (fun _ => "tok0") (fun _ => some "pw0") (fun _ => some "pw0")
      "srv.database.azure.com").1 (by decide)).1
  · exact ((claim_c1 (fun _ => "tok0") (fun _ => some "pw0") (fun _ => some "pw0")
      "localhost").2.1 (by decide)).1

/-- Counterexample to claim C2 ("every script issues all three kinds of
similarity queries"): on a catalog that even contains the looked-up target,
`sqlalchemy_movies.py` (and likewise `sqlalchemy_async.py`) issues no
distance-threshold query and no aggregate-average query, so it does not issue
all three kinds. -/
theorem claim_c2_counterexample :
    issuesAllThree (sqlalchemy_movies_steps demoCatalog) = false ∧
    issuesAllThree (sqlalchemy_async_steps demoCatalog) = false ∧
    (sqlalchemy_movies_steps demoCatalog).any isThresholdQuery = false ∧
    (sqlalchemy_movies_steps demoCatalog).any isAvgQuery = false := by
  decide

/-- Claim C2 as amended: the two toy-vector scripts issue all three kinds of
similarity queries (nearest neighbors, distance threshold, aggregate average);
the two catalog scripts issue no distance-threshold and no aggregate-average
query on any catalog, their only similarity query being the five-nearest-
neighbors query issued when the target item is found. -/
theorem claim_c2 :
    issuesAllThree psycopg_steps = true ∧
    issuesAllThree sqlalchemy_items_steps = true ∧
    (∀ catalog : List CatalogItem,
      (sqlalchemy_movies_steps catalog).any isThresholdQuery = false ∧
      (sqlalchemy_movies_steps catalog).any isAvgQuery = false ∧
      (sqlalchemy_async_steps catalog).any isThresholdQuery = false ∧
      (sqlalchemy_async_steps catalog).any isAvgQuery = false) ∧
    (∀ it : CatalogItem,
      (sqlalchemy_movies_lookupSteps (some it)).any isNearestQuery = true ∧
      (async_lookupSteps (some it)).any isNearestQuery = true) := by
  refine ⟨by decide, by decide, fun catalog => ?_, fun it => ⟨rfl, rfl⟩⟩
  cases h : catalog.find? (fun it => it.name == targetName) <;>
    simp only [sqlalchemy_movies_steps, sqlalchemy_async_steps, async_main_prog,
      async_insert_objects, async_select_and_update_objects, h] <;>
    exact ⟨rfl, rfl, rfl, rfl⟩

/-- Claim C3: in every environment that lacks a required configuration variable
(`POSTGRES_HOST`, `POSTGRES_USERNAME` or `POSTGRES_DATABASE` for any script, or
`POSTGRES_PASSWORD` when the host does not end with `.database.azure.com`),
every script raises an error at startup having performed no database step: no
connection and no query. -/
theorem claim_c3 (tok : TokenProvider) (env : Env) (catalog : List CatalogItem) :
    (env "POSTGRES_HOST" = none →
      abortedRun (psycopg_main tok env) ∧
      abortedRun (sqlalchemy_items_main tok env) ∧
      abortedRun (sqlalchemy_movies_main tok env catalog) ∧
      abortedRun (sqlalchemy_async_main tok env catalog)) ∧
    (env "POSTGRES_USERNAME" = none →
      abortedRun (psycopg_main tok env) ∧
      abortedRun (sqlalchemy_items_main tok env) ∧
      abortedRun (sqlalchemy_movies_main tok env catalog) ∧
      abortedRun (sqlalchemy_async_main tok env catalog)) ∧
    (env "POSTGRES_DATABASE" = none →
      abortedRun (psycopg_main tok env) ∧
      abortedRun (sqlalchemy_items_main tok env) ∧
      abortedRun (sqlalchemy_movies_main tok env catalog) ∧
      abortedRun (sqlalchemy_async_main tok env catalog)) ∧
    (∀ host, env "POSTGRES_HOST" = some host → strEndsWith host azureSuffix = false →
      env "POSTGRES_PASSWORD" = none →
      abortedRun (psycopg_main tok env) ∧
      abortedRun (sqlalchemy_items_main tok env) ∧
      abortedRun (sqlalchemy_movies_main tok env catalog) ∧
      abortedRun (sqlalchemy_async_main tok env catalog)) := by
  unfold psycopg_main sqlalchemy_items_main sqlalchemy_movies_main sqlalchemy_async_main
    psycopg_config sqlalchemy_items_config sqlalchemy_movies_config sqlalchemy_async_config
    psycopg_resolvePassword sqlalchemy_items_resolvePassword
    sqlalchemy_movies_resolvePassword sqlalchemy_async_resolvePassword
    environGet abortedRun
  refine ⟨fun h1 => ?_, fun h2 => ?_, fun h3 => ?_, fun host h1 h2 h3 => ?_⟩
  · rw [h1]; exact ⟨⟨rfl, rfl⟩, ⟨rfl, rfl⟩, ⟨rfl, rfl⟩, ⟨rfl, rfl⟩⟩
  · rw [h2]
    cases env "POSTGRES_HOST" <;> exact ⟨⟨rfl, rfl⟩, ⟨rfl, rfl⟩, ⟨rfl, rfl⟩, ⟨rfl, rfl⟩⟩
  · rw [h3]
    cases env "POSTGRES_HOST" <;> cases env "POSTGRES_USERNAME" <;>
      exact ⟨⟨rfl, rfl⟩, ⟨rfl, rfl⟩, ⟨rfl, rfl⟩, ⟨rfl, rfl⟩⟩
  · rw [h1]
    dsimp only
    simp only [h2, h3]
    cases env "POSTGRES_USERNAME" <;> cases env "POSTGRES_DATABASE" <;>
      exact ⟨⟨rfl, rfl⟩, ⟨rfl, rfl⟩, ⟨rfl, rfl⟩, ⟨rfl, rfl⟩⟩

/-- Witness for C3: in the empty environment every script aborts before any
database step. -/
theorem claim_c3_witness :
    abortedRun (psycopg_main (fun _ => "tok0") (fun _ => none)) ∧
    abortedRun (sqlalchemy_async_main (fun _ => "tok0") (fun _ => none) []) := by
  have h := (claim_c3 (fun _ => "tok0") (fun _ => none) []).1 rfl
  exact ⟨h.1, h.2.2.2⟩

/-- Claim C4: in both catalog scripts, when the lookup for the item named
"LumenHead Headlamp" returns no row the script prints "Movie not found", exits
with status 1, and issues no similarity query; when a row is found it issues
the similarity query, does not print that message and does not exit with
status 1. -/
theorem claim_c4 (catalog : List CatalogItem) :
    (catalog.find? (fun it => it.name == targetName) = none →
      (sqlalchemy_movies_steps catalog).any printsNotFound = true ∧
      (sqlalchemy_movies_steps catalog).any isExitOne = true ∧
      (sqlalchemy_movies_steps catalog).any isNearestQuery = false ∧
      (sqlalchemy_async_steps catalog).any printsNotFound = true ∧
      (sqlalchemy_async_steps catalog).any isExitOne = true ∧
      (sqlalchemy_async_steps catalog).any isNearestQuery = false) ∧
    (∀ it, catalog.find? (fun it => it.name == targetName) = some it →
      (sqlalchemy_movies_steps catalog).any printsNotFound = false ∧
      (sqlalchemy_movies_steps catalog).any isExitOne = false ∧
      (sqlalchemy_movies_steps catalog).any isNearestQuery = true ∧
      (sqlalchemy_async_steps catalog).any printsNotFound = false ∧
      (sqlalchemy_async_steps catalog).any isExitOne = false ∧
      (sqlalchemy_async_steps catalog).any isNearestQuery = true) := by
  refine ⟨fun h => ?_, fun it h => ?_⟩
  · simp only [sqlalchemy_movies_steps, sqlalchemy_async_steps, async_main_prog,
      async_insert_objects, async_select_and_update_objects, h]
    exact ⟨rfl, rfl, rfl, rfl, rfl, rfl⟩
  · simp [sqlalchemy_movies_steps, sqlalchemy_async_steps, async_main_prog,
      async_insert_objects, async_select_and_update_objects, AProg.linearize, AProg.ofSteps,
      sqlalchemy_movies_lookupSteps, async_lookupSteps, h,
      printsNotFound, isExitOne, isNearestQuery, fiveMost_ne_notFound]

/-- Witness for C4: on the empty catalog the lookup fails and the script prints
the message without querying; on `demoCatalog` the target is found and the
similarity query is issued without the message. -/
theorem claim_c4_witness :
    ((sqlalchemy_movies_steps []).any printsNotFound = true ∧
     (sqlalchemy_movies_steps []).any isNearestQuery = false) ∧
    ((sqlalchemy_movies_steps demoCatalog).any printsNotFound = false ∧
     (sqlalchemy_movies_steps demoCatalog).any isNearestQuery = true) := by
  refine ⟨⟨?_, ?_⟩, ⟨?_, ?_⟩⟩
  · exact ((claim_c4 []).1 rfl).1
  · exact ((claim_c4 []).1 rfl).2.2.1
  · exact ((claim_c4 demoCatalog).2 demoItem rfl).1
  · exact ((claim_c4 demoCatalog).2 demoItem rfl).2.2.1

/-- Claim C5: each script declares the vector dimensionality exactly once, in
its schema definition: 3 in the two toy-vector scripts and 1536 in the two
catalog scripts.  `dimsDeclared` collects every dimensionality declaration of a
run, so a singleton result means the dimension appears in the schema definition
and nowhere else. -/
theorem claim_c5 (catalog : List CatalogItem) :
    dimsDeclared psycopg_steps = [3] ∧
    dimsDeclared sqlalchemy_items_steps = [3] ∧
    dimsDeclared (sqlalchemy_movies_steps catalog) = [1536] ∧
    dimsDeclared (sqlalchemy_async_steps catalog) = [1536] := by
  refine ⟨rfl, rfl, ?_, ?_⟩ <;>
    cases h : catalog.find? (fun it => it.name == targetName) <;>
      simp only [sqlalchemy_movies_steps, sqlalchemy_async_steps, async_main_prog,
        async_insert_objects, async_select_and_update_objects, h] <;> rfl

/-- Claim C6: every script performs its steps in the fixed order connect,
create schema (extension, drop tables, create tables), create index, insert
rows, run queries and print results (`nondecreasing (phasesOf _)`); moreover no
query is issued before the index is created and no row is inserted before the
table exists. -/
theorem claim_c6 (catalog : List CatalogItem) :
    (nondecreasing (phasesOf psycopg_steps) && queriesAfterIndex psycopg_steps &&
      insertsAfterTables psycopg_steps) = true ∧
    (nondecreasing (phasesOf sqlalchemy_items_steps) &&
      queriesAfterIndex sqlalchemy_items_steps &&
      insertsAfterTables sqlalchemy_items_steps) = true ∧
    (nondecreasing (phasesOf (sqlalchemy_movies_steps catalog)) &&
      queriesAfterIndex (sqlalchemy_movies_steps catalog) &&
      insertsAfterTables (sqlalchemy_movies_steps catalog)) = true ∧
    (nondecreasing (phasesOf (sqlalchemy_async_steps catalog)) &&
      queriesAfterIndex (sqlalchemy_async_steps catalog) &&
      insertsAfterTables (sqlalchemy_async_steps catalog)) = true := by
  refine ⟨by decide, by decide, ?_, ?_⟩ <;>
    cases h : catalog.find? (fun it => it.name == targetName) <;>
      simp only [sqlalchemy_movies_steps, sqlalchemy_async_steps, async_main_prog,
        async_insert_objects, async_select_and_update_objects, h] <;> rfl

/-- Claim C7: the only similarity metrics any script uses are Euclidean and
cosine distance; the toy-vector scripts rank and filter exclusively by
Euclidean distance and build a `vector_l2_ops` index, the catalog scripts
exclusively by cosine distance with a `vector_cosine_ops` index, each query
metric matching the access method of that script's index. -/
theorem claim_c7 (catalog : List CatalogItem) :
    indexMetrics psycopg_steps = [Metric.l2] ∧
    (usedMetrics psycopg_steps).all (fun m => m == Metric.l2) = true ∧
    indexMetrics sqlalchemy_items_steps = [Metric.l2] ∧
    (usedMetrics sqlalchemy_items_steps).all (fun m => m == Metric.l2) = true ∧
    indexMetrics (sqlalchemy_movies_steps catalog) = [Metric.cosine] ∧
    (usedMetrics (sqlalchemy_movies_steps catalog)).all
      (fun m => m == Metric.cosine) = true ∧
    indexMetrics (sqlalchemy_async_steps catalog) = [Metric.cosine] ∧
    (usedMetrics (sqlalchemy_async_steps catalog)).all
      (fun m => m == Metric.cosine) = true := by
  refine ⟨rfl, rfl, rfl, rfl, ?_, ?_, ?_, ?_⟩ <;>
    cases h : catalog.find? (fun it => it.name == targetName) <;>
      simp only [sqlalchemy_movies_steps, sqlalchemy_async_steps, async_main_prog,
        async_insert_objects, async_select_and_update_objects, h] <;> rfl

/-- Claim C8: `sqlalchemy_items.py` never commits its session: its run contains
no commit step, every one of its five queries sees the three staged vectors
(committed rows plus the session's flushed pending rows), and after the run the
committed content of the `items` table is empty, whatever it held before. -/
theorem claim_c8 (old : List ToyRow) :
    sqlalchemy_items_steps.any isCommitStep = false ∧
    visibleAtQueries (initState old) sqlalchemy_items_steps =
      [toyVectors, toyVectors, toyVectors, toyVectors, toyVectors] ∧
    (runSteps (initState old) sqlalchemy_items_steps).committed = [] :=
  ⟨rfl, rfl, rfl⟩

/-- Claim C9: every script contains an unconditional drop of the `items` table,
and the committed table content after a run is a fixed value independent of the
rows the table held before: the three toy vectors for `psycopg_items.py`
(autocommitted), the empty table for `sqlalchemy_items.py` (never committed),
and exactly the catalog rows for the two catalog scripts — so every
pre-existing row is destroyed regardless of the script's inputs. -/
theorem claim_c9 (oldToy : List ToyRow) (oldCat : List CatalogItem)
    (catalog : List CatalogItem) :
    psycopg_steps.any isDropTablesStep = true ∧
    sqlalchemy_items_steps.any isDropTablesStep = true ∧
    (sqlalchemy_movies_steps catalog).any isDropTablesStep = true ∧
    (sqlalchemy_async_steps catalog).any isDropTablesStep = true ∧
    (runSteps (initState oldToy) psycopg_steps).committed = toyVectors ∧
    (runSteps (initState oldToy) sqlalchemy_items_steps).committed = [] ∧
    (runSteps (initState oldCat) (sqlalchemy_movies_steps catalog)).committed = catalog ∧
    (runSteps (initState oldCat) (sqlalchemy_async_steps catalog)).committed = catalog := by
  refine ⟨rfl, rfl, ?_, ?_, rfl, rfl, ?_, ?_⟩ <;>
    cases h : catalog.find? (fun it => it.name == targetName) <;>
      simp only [sqlalchemy_movies_steps, sqlalchemy_async_steps, async_main_prog,
        async_insert_objects, async_select_and_update_objects, h] <;> rfl

/-- Claim C10: exactly one script, `sqlalchemy_async.py`, uses an asynchronous
session; its program never composes operations concurrently and admits exactly
one execution order — its sequential one — so no two database operations are
ever in flight at the same time.  The other three scripts are synchronous. -/
theorem claim_c10 (catalog : List CatalogItem) :
    psycopg_usesAsyncSession = false ∧
    sqlalchemy_items_usesAsyncSession = false ∧
    sqlalchemy_movies_usesAsyncSession = false ∧
    sqlalchemy_async_usesAsyncSession = true ∧
    (async_main_prog catalog).usesConcurrency = false ∧
    executionsA (async_main_prog catalog) = [sqlalchemy_async_steps catalog] := by
  refine ⟨rfl, rfl, rfl, rfl, ?_, ?_⟩ <;>
    cases h : catalog.find? (fun it => it.name == targetName) <;>
      simp only [async_main_prog, async_insert_objects, async_select_and_update_objects,
        sqlalchemy_async_steps, h] <;> rfl

end PgVectorSamples
